import Mathlib

/-!
LearnOpenGL "hello triangle": a trace model of `main`.

The program in `LearnOpenGL/LeanrOpenGL.cpp` is one straight-line `main`
followed by a render loop, plus the two helpers `framebuffer_size_callback`
and `processInput`.  Everything it does is a call into GLFW, GLAD, OpenGL or
`cout`, so the embedding is a function from the answers of those libraries
(`World`) to the ordered list of calls the program issues (`GLCall`) and the
exit status.

Conventions.
* A call that returns a value carries that value as its last argument
  (`glCreateShader kind h` is "`glCreateShader(kind)` returned `h`").
* `int success` is written by the status queries; `!success` is `success = 0`.
* `float` literals are recorded in tenths (`0.5f` is `5`).
* The render loop is driven by a finite script of `Frame`s; when the script is
  used up while the should-close flag is still false the run is still inside
  the loop and `main` has no exit status yet (`exit = none`).
-/

namespace LearnOpenGL

/-! ## Library constants used by the source -/

/-- OpenGL enumerants named in the source. -/
inductive GLenum where
  | GL_VERTEX_SHADER
  | GL_FRAGMENT_SHADER
  | GL_COMPILE_STATUS
  | GL_LINK_STATUS
  | GL_ARRAY_BUFFER
  | GL_STATIC_DRAW
  | GL_FLOAT
  | GL_COLOR_BUFFER_BIT
  | GL_TRIANGLES
  deriving DecidableEq, Repr

/-- GLFW window hints named in the source. -/
inductive GLFWhint where
  | GLFW_CONTEXT_VERSION_MAJOR
  | GLFW_CONTEXT_VERSION_MINOR
  | GLFW_OPENGL_PROFILE
  deriving DecidableEq, Repr

/-- Values passed to `glfwWindowHint` in the source. -/
inductive GLFWvalue where
  | int (n : Int)
  | GLFW_OPENGL_CORE_PROFILE
  deriving DecidableEq, Repr

/-- GLFW keys named in the source. -/
inductive GLFWkey where
  | GLFW_KEY_ESCAPE
  deriving DecidableEq, Repr

/-- The value `GLFW_PRESS` of `glfw3.h`, the answer of `glfwGetKey` for a key
that is down. -/
def GLFW_PRESS : Int := 1

/-- The value `GLFW_RELEASE` of `glfw3.h`. -/
def GLFW_RELEASE : Int := 0

/-! ## Calls -/

/-- One call issued by the program, in the order of the source.  Output through
`cout` is split the way the source chains `<<`: a string literal, the
`infoLog` buffer, `endl`. -/
inductive GLCall where
  | glfwInit
  | glfwWindowHint (hint : GLFWhint) (value : GLFWvalue)
  | glfwCreateWindow (width height : Int) (title : String) (created : Bool)
  | glfwTerminate
  | glfwMakeContextCurrent
  | gladLoadGLLoader (loaded : Bool)
  | glViewport (x y width height : Int)
  | glfwSetFramebufferSizeCallback
  | glCreateShader (kind : GLenum) (shader : Nat)
  | glShaderSource (shader : Nat) (count : Nat) (source : String)
  | glCompileShader (shader : Nat)
  | glGetShaderiv (shader : Nat) (pname : GLenum) (success : Int)
  | glGetShaderInfoLog (shader : Nat) (maxLength : Nat) (infoLog : List Char)
  | glCreateProgram (program : Nat)
  | glAttachShader (program shader : Nat)
  | glLinkProgram (program : Nat)
  | glGetProgramiv (program : Nat) (pname : GLenum) (success : Int)
  | glGetProgramInfoLog (program : Nat) (maxLength : Nat) (infoLog : List Char)
  | glDeleteShader (shader : Nat)
  | glGenVertexArrays (n : Nat) (vao : Nat)
  | glBindVertexArray (vao : Nat)
  | glGenBuffers (n : Nat) (vbo : Nat)
  | glBindBuffer (target : GLenum) (vbo : Nat)
  | glBufferData (target : GLenum) (size : Nat) (data : List Int) (usage : GLenum)
  | glVertexAttribPointer (index : Nat) (size : Nat) (type : GLenum) (normalized : Bool)
      (stride : Nat) (offset : Nat)
  | glEnableVertexAttribArray (index : Nat)
  | glfwWindowShouldClose (flag : Bool)
  | glfwGetKey (key : GLFWkey) (state : Int)
  | glfwSetWindowShouldClose (value : Bool)
  | glClearColor (r g b a : Int)
  | glClear (mask : GLenum)
  | glUseProgram (program : Nat)
  | glDrawArrays (mode : GLenum) (first count : Nat)
  | glfwPollEvents
  | glfwSwapBuffers
  | cout (s : String)
  | coutLog (infoLog : List Char)
  | endl
  deriving DecidableEq, Repr

/-! ## The answers of the libraries -/

/-- What the window system does during one pass of the render loop. -/
structure Frame where
  /-- the answer of `glfwGetKey(window, GLFW_KEY_ESCAPE)` in this pass -/
  key : Int
  /-- a framebuffer resize dispatched by `glfwPollEvents`, if any -/
  resize : Option (Int × Int)
  /-- a value written to the should-close flag from outside the program while
  events are polled (`some true` is the user closing the window), if any -/
  closeWrite : Option Bool
  deriving DecidableEq, Repr

/-- Everything the libraries answer during one run. -/
structure World where
  /-- `glfwCreateWindow` returned a window (not `NULL`) -/
  windowCreated : Bool
  /-- `gladLoadGLLoader` returned non-zero -/
  gladLoaded : Bool
  /-- the handle returned by `glCreateShader(GL_VERTEX_SHADER)` -/
  vertexShader : Nat
  /-- the value written by `glGetShaderiv(vertexShader, GL_COMPILE_STATUS, _)` -/
  vertexStatus : Int
  /-- the driver's diagnostic log of the vertex shader -/
  vertexLog : List Char
  /-- the handle returned by `glCreateShader(GL_FRAGMENT_SHADER)` -/
  fragmentShader : Nat
  /-- the value written by `glGetShaderiv(fragmentShader, GL_COMPILE_STATUS, _)` -/
  fragmentStatus : Int
  /-- the driver's diagnostic log of the fragment shader -/
  fragmentLog : List Char
  /-- the handle returned by `glCreateProgram()` -/
  shaderProgram : Nat
  /-- the value written by `glGetProgramiv(shaderProgram, GL_LINK_STATUS, _)` -/
  linkStatus : Int
  /-- the driver's diagnostic log of the program -/
  linkLog : List Char
  /-- the name returned by `glGenVertexArrays` -/
  VAO : Nat
  /-- the name returned by `glGenBuffers` -/
  VBO : Nat
  /-- the should-close flag of the window when the loop is first reached -/
  shouldClose : Bool
  /-- the passes of the render loop that are observed -/
  frames : List Frame
  deriving DecidableEq, Repr

/-- The result of a run: the calls issued, and the value `main` returned once it
has returned. -/
structure Run where
  trace : List GLCall
  exit : Option Int
  deriving DecidableEq, Repr

/-! ## The source -/

/-- The global `vertexShaderSource`, up to the terminating NUL. -/
def vertexShaderSource : String :=
  "#version 330 core\n" ++
  "layout (location = 0) in vec3 aPos;\n" ++
  "void main()\n" ++
  "\x7b\n" ++
  "   gl_Position = vec4(aPos.x, aPos.y, aPos.z, 1.0);\n" ++
  "\x7d"

/-- The global `fragmentShaderSource`, up to the terminating NUL. -/
def fragmentShaderSource : String :=
  "#version 330 core\n" ++
  "out vec4 FragColor;\n" ++
  "void main()\n" ++
  "\x7b\n" ++
  "   FragColor = vec4(1.0f, 0.5f, 0.2f, 1.0f);\n" ++
  "\x7d\n"

/-- Modelled from the spec: the driver's `glGetShaderInfoLog` and
`glGetProgramInfoLog` are library code outside the repository.  They copy the
object's diagnostic log into the caller's buffer, "bounded buffer, truncated if
longer": at most `maxLength` bytes are written, the terminating NUL included,
so the buffer read back as a C string holds the first `maxLength - 1`
characters of the log. -/
def getInfoLog (maxLength : Nat) (log : List Char) : List Char :=
  log.take (maxLength - 1)

/-- The vertex-shader part of the set-up section (source lines 71 to 88). -/
def vertexSetup (w : World) : List GLCall :=
  let vertexShader := w.vertexShader
  let success := w.vertexStatus
  [ GLCall.glCreateShader GLenum.GL_VERTEX_SHADER vertexShader,
    GLCall.glShaderSource vertexShader 1 vertexShaderSource,
    GLCall.glCompileShader vertexShader,
    GLCall.glGetShaderiv vertexShader GLenum.GL_COMPILE_STATUS success ] ++
  (if success = 0 then
    let infoLog := getInfoLog 512 w.vertexLog
    [ GLCall.glGetShaderInfoLog vertexShader 512 infoLog,
      GLCall.cout "ERROR::SHADER::VERTEX::COMPILATION_FAILED\n",
      GLCall.coutLog infoLog,
      GLCall.endl ]
  else [])

/-- The fragment-shader part of the set-up section (source lines 93 to 107). -/
def fragmentSetup (w : World) : List GLCall :=
  let fragmentShader := w.fragmentShader
  let success := w.fragmentStatus
  [ GLCall.glCreateShader GLenum.GL_FRAGMENT_SHADER fragmentShader,
    GLCall.glShaderSource fragmentShader 1 fragmentShaderSource,
    GLCall.glCompileShader fragmentShader,
    GLCall.glGetShaderiv fragmentShader GLenum.GL_COMPILE_STATUS success ] ++
  (if success = 0 then
    let infoLog := getInfoLog 512 w.fragmentLog
    [ GLCall.glGetShaderInfoLog fragmentShader 512 infoLog,
      GLCall.cout "ERROR::SHADER::FRAGMENT::COMPILATION_FAILED\n",
      GLCall.coutLog infoLog,
      GLCall.endl ]
  else [])

/-- The program part of the set-up section (source lines 112 to 125). -/
def programSetup (w : World) : List GLCall :=
  let shaderProgram := w.shaderProgram
  let success := w.linkStatus
  [ GLCall.glCreateProgram shaderProgram,
    GLCall.glAttachShader shaderProgram w.vertexShader,
    GLCall.glAttachShader shaderProgram w.fragmentShader,
    GLCall.glLinkProgram shaderProgram,
    GLCall.glGetProgramiv shaderProgram GLenum.GL_LINK_STATUS success ] ++
  (if success = 0 then
    let infoLog := getInfoLog 512 w.linkLog
    [ GLCall.glGetProgramInfoLog shaderProgram 512 infoLog,
      GLCall.cout "ERROR::SHADER_PROGRAM::LINK::FAILED\n",
      GLCall.coutLog infoLog,
      GLCall.endl ]
  else [])

/-- The clean-up that closes the set-up section (source lines 129 and 130). -/
def shaderCleanup (w : World) : List GLCall :=
  [ GLCall.glDeleteShader w.vertexShader,
    GLCall.glDeleteShader w.fragmentShader ]

/-- The whole shader set-up section of `main` (source lines 71 to 130). -/
def shaderSetup (w : World) : List GLCall :=
  vertexSetup w ++ fragmentSetup w ++ programSetup w ++ shaderCleanup w

/-- The array `vertices`, in tenths. -/
def vertices : List Int :=
  [ -5, -5, 0,
     5, -5, 0,
     0,  5, 0 ]

/-- The vertices set-up section of `main` (source lines 135 to 163);
`sizeof(vertices)` is nine floats of four bytes. -/
def verticesSetup (w : World) : List GLCall :=
  [ GLCall.glGenVertexArrays 1 w.VAO,
    GLCall.glBindVertexArray w.VAO,
    GLCall.glGenBuffers 1 w.VBO,
    GLCall.glBindBuffer GLenum.GL_ARRAY_BUFFER w.VBO,
    GLCall.glBufferData GLenum.GL_ARRAY_BUFFER (vertices.length * 4) vertices
      GLenum.GL_STATIC_DRAW,
    GLCall.glVertexAttribPointer 0 3 GLenum.GL_FLOAT false (3 * 4) 0,
    GLCall.glEnableVertexAttribArray 0 ]

/-- The helper `framebuffer_size_callback`. -/
def framebuffer_size_callback (width height : Int) : List GLCall :=
  [ GLCall.glViewport 0 0 width height ]

/-- The helper `processInput`: the calls it issues and the should-close flag
after it, given the flag before it and the answer `key` of
`glfwGetKey(window, GLFW_KEY_ESCAPE)`. -/
def processInput (flag : Bool) (key : Int) : List GLCall × Bool :=
  if key = GLFW_PRESS then
    ([GLCall.glfwGetKey GLFWkey.GLFW_KEY_ESCAPE key, GLCall.glfwSetWindowShouldClose true], true)
  else
    ([GLCall.glfwGetKey GLFWkey.GLFW_KEY_ESCAPE key], flag)

/-- The effect of `glfwPollEvents` in one pass: the registered resize callback
runs when a resize is pending, and the flag takes the value written from
outside, if any. -/
def pollEvents (flag : Bool) (f : Frame) : List GLCall × Bool :=
  (GLCall.glfwPollEvents ::
    (match f.resize with
     | some (width, height) => framebuffer_size_callback width height
     | none => []),
   match f.closeWrite with
   | some b => b
   | none => flag)

/-- The rendering commands of one pass (source lines 176 to 181). -/
def renderCommands (w : World) : List GLCall :=
  [ GLCall.glClearColor 2 3 3 10,
    GLCall.glClear GLenum.GL_COLOR_BUFFER_BIT,
    GLCall.glUseProgram w.shaderProgram,
    GLCall.glBindVertexArray w.VAO,
    GLCall.glDrawArrays GLenum.GL_TRIANGLES 0 3 ]

/-- The body of the game loop (source lines 172 to 185): the calls of one pass
and the should-close flag after it. -/
def loopBody (w : World) (flag : Bool) (f : Frame) : List GLCall × Bool :=
  let input := processInput flag f.key
  let poll := pollEvents input.2 f
  (input.1 ++ renderCommands w ++ poll.1 ++ [GLCall.glfwSwapBuffers], poll.2)

/-- The game loop (source line 169): the condition is tested, and while the
flag is false one pass runs per frame of the script.  The second component
tells whether the loop was left. -/
def gameLoop (w : World) : Bool → List Frame → List GLCall × Bool
  | true, _ => ([GLCall.glfwWindowShouldClose true], true)
  | false, [] => ([], false)
  | false, f :: fs =>
    let body := loopBody w false f
    let rest := gameLoop w body.2 fs
    (GLCall.glfwWindowShouldClose false :: (body.1 ++ rest.1), rest.2)

/-- The calls of `main` before the window is created (source lines 32 to 38). -/
def windowSetup (w : World) : List GLCall :=
  [ GLCall.glfwInit,
    GLCall.glfwWindowHint GLFWhint.GLFW_CONTEXT_VERSION_MAJOR (GLFWvalue.int 3),
    GLCall.glfwWindowHint GLFWhint.GLFW_CONTEXT_VERSION_MINOR (GLFWvalue.int 3),
    GLCall.glfwWindowHint GLFWhint.GLFW_OPENGL_PROFILE GLFWvalue.GLFW_OPENGL_CORE_PROFILE,
    GLCall.glfwCreateWindow 800 600 "LearnOpenGL" w.windowCreated ]

/-- The function `main`. -/
def main (w : World) : Run :=
  if w.windowCreated = false then
    { trace := windowSetup w ++
        [ GLCall.cout "Failed to create GLFW window", GLCall.endl,
          GLCall.glfwTerminate ],
      exit := some (-1) }
  else if w.gladLoaded = false then
    { trace := windowSetup w ++
        [ GLCall.glfwMakeContextCurrent,
          GLCall.gladLoadGLLoader w.gladLoaded,
          GLCall.cout "Failed to initialize GLAD", GLCall.endl ],
      exit := some (-1) }
  else
    let loop := gameLoop w w.shouldClose w.frames
    { trace := windowSetup w ++
        [ GLCall.glfwMakeContextCurrent,
          GLCall.gladLoadGLLoader w.gladLoaded,
          GLCall.glViewport 0 0 800 600,
          GLCall.glfwSetFramebufferSizeCallback ] ++
        shaderSetup w ++ verticesSetup w ++ loop.1 ++
        (if loop.2 then [GLCall.glfwTerminate] else []),
      exit := if loop.2 then some 0 else none }

/-! ## Observers on traces -/

/-- Output written through `cout`. -/
def GLCall.isOutput : GLCall → Bool
  | GLCall.cout _ => true
  | GLCall.coutLog _ => true
  | GLCall.endl => true
  | _ => false

/-- What the run wrote to standard output, piece by piece. -/
def stdout (t : List GLCall) : List GLCall :=
  t.filter GLCall.isOutput

/-- A release of a shader object. -/
def GLCall.isDeleteShader : GLCall → Bool
  | GLCall.glDeleteShader _ => true
  | _ => false

/-- A draw call. -/
def GLCall.isDraw : GLCall → Bool
  | GLCall.glDrawArrays _ _ _ => true
  | _ => false

/-- A call into OpenGL proper (the `gl*` functions: viewport, shaders, programs,
buffers, vertex arrays, clearing and drawing), as opposed to GLFW, GLAD and
`cout`. -/
def GLCall.isOpenGL : GLCall → Bool
  | GLCall.glfwInit => false
  | GLCall.glfwWindowHint _ _ => false
  | GLCall.glfwCreateWindow _ _ _ _ => false
  | GLCall.glfwTerminate => false
  | GLCall.glfwMakeContextCurrent => false
  | GLCall.gladLoadGLLoader _ => false
  | GLCall.glfwSetFramebufferSizeCallback => false
  | GLCall.glfwWindowShouldClose _ => false
  | GLCall.glfwGetKey _ _ => false
  | GLCall.glfwSetWindowShouldClose _ => false
  | GLCall.glfwPollEvents => false
  | GLCall.glfwSwapBuffers => false
  | GLCall.cout _ => false
  | GLCall.coutLog _ => false
  | GLCall.endl => false
  | _ => true

/-- The calls the game loop can issue. -/
def GLCall.isLoopCall : GLCall → Bool
  | GLCall.glfwWindowShouldClose _ => true
  | GLCall.glfwGetKey _ _ => true
  | GLCall.glfwSetWindowShouldClose _ => true
  | GLCall.glClearColor _ _ _ _ => true
  | GLCall.glClear _ => true
  | GLCall.glUseProgram _ => true
  | GLCall.glBindVertexArray _ => true
  | GLCall.glDrawArrays _ _ _ => true
  | GLCall.glfwPollEvents => true
  | GLCall.glViewport _ _ _ _ => true
  | GLCall.glfwSwapBuffers => true
  | _ => false

/-- The steps of a shader build: compiling a stage, creating a program, linking
it. -/
def GLCall.isBuildStep : GLCall → Bool
  | GLCall.glCompileShader _ => true
  | GLCall.glCreateProgram _ => true
  | GLCall.glLinkProgram _ => true
  | _ => false

/-- The shader and program objects of the OpenGL context.  The driver is not
part of the repository; the state kept here is the one the OpenGL reference
pages of `glCreateShader`, `glCreateProgram`, `glAttachShader` and
`glDeleteShader` describe. -/
structure GLObjects where
  /-- the names of the shader objects that exist -/
  shaders : Finset Nat
  /-- the names of the program objects that exist -/
  programs : Finset Nat
  /-- the attachments, as pairs of a program and a shader attached to it -/
  attached : Finset (Nat × Nat)
  /-- the shader objects flagged for deletion -/
  flagged : Finset Nat
  deriving DecidableEq

/-- The set of live shader and program objects. -/
def GLObjects.live (s : GLObjects) : Finset Nat :=
  s.shaders ∪ s.programs

/-- The objects of the context after one call, as the OpenGL reference pages
have it.
* `glCreateShader` and `glCreateProgram` return 0 when no object could be
  created, and the name of a new object otherwise.
* `glAttachShader` attaches a shader object to a program object; with a name
  that is not such an object it raises an error and changes nothing.
* `glDeleteShader` frees a shader object that is attached to no program; one
  that is attached to a program is only flagged for deletion and stays alive
  until it is detached; a name that is not a shader object is left alone.
* No other call of the program creates, attaches, detaches or deletes an
  object: the source never calls `glDetachShader` or `glDeleteProgram`. -/
def liveAfterCall (s : GLObjects) : GLCall → GLObjects
  | GLCall.glCreateShader _ shader =>
    if shader = 0 then s else { s with shaders := insert shader s.shaders }
  | GLCall.glCreateProgram program =>
    if program = 0 then s else { s with programs := insert program s.programs }
  | GLCall.glAttachShader program shader =>
    if program ∈ s.programs ∧ shader ∈ s.shaders then
      { s with attached := insert (program, shader) s.attached }
    else s
  | GLCall.glDeleteShader shader =>
    if shader ∈ s.shaders then
      if shader ∈ s.attached.image Prod.snd then
        { s with flagged := insert shader s.flagged }
      else
        { s with shaders := s.shaders.erase shader, flagged := s.flagged.erase shader }
    else s
  | _ => s

/-- The objects of the context after a sequence of calls. -/
def liveAfter (s : GLObjects) (t : List GLCall) : GLObjects :=
  t.foldl liveAfterCall s

/-- A context that holds one shader object, 10, and one program object, 11. -/
def objectsBefore : GLObjects :=
  { shaders := {10}, programs := {11}, attached := ∅, flagged := ∅ }

/-- A context without any shader or program object. -/
def noObjects : GLObjects :=
  { shaders := ∅, programs := ∅, attached := ∅, flagged := ∅ }

/-! ## Sample worlds -/

/-- A world in which everything succeeds; the second pass sees escape pressed
and a resize. -/
def worldAllOk : World :=
  { windowCreated := true, gladLoaded := true,
    vertexShader := 1, vertexStatus := 1, vertexLog := [],
    fragmentShader := 2, fragmentStatus := 1, fragmentLog := [],
    shaderProgram := 3, linkStatus := 1, linkLog := [],
    VAO := 1, VBO := 1, shouldClose := false,
    frames := [ { key := GLFW_RELEASE, resize := none, closeWrite := none },
                { key := GLFW_PRESS, resize := some (640, 480), closeWrite := none } ] }

/-- As `worldAllOk`, with the vertex shader failing to compile. -/
def worldVertexFails : World :=
  { worldAllOk with vertexStatus := 0, vertexLog := "0:1: syntax error".toList }

/-- As `worldAllOk`, with the fragment shader failing to compile and the link
failing after it. -/
def worldFragmentFails : World :=
  { worldAllOk with
    fragmentStatus := 0, fragmentLog := "0:2: syntax error".toList,
    linkStatus := 0, linkLog := "fragment shader not compiled".toList }

/-- As `worldAllOk`, with both shaders compiling and the link failing. -/
def worldLinkFails : World :=
  { worldAllOk with linkStatus := 0, linkLog := "interface mismatch".toList }

/-- As `worldLinkFails`, with a diagnostic log of 600 characters. -/
def worldLongLog : World :=
  { worldAllOk with linkStatus := 0, linkLog := List.replicate 600 'x' }

/-- A world in which the window cannot be created. -/
def worldNoWindow : World :=
  { worldAllOk with windowCreated := false }

/-! ## Shape of the trace -/

theorem main_trace_of_loaded (w : World) (hw : w.windowCreated = true)
    (hg : w.gladLoaded = true) :
    (main w).trace =
      windowSetup w ++
        [ GLCall.glfwMakeContextCurrent,
          GLCall.gladLoadGLLoader w.gladLoaded,
          GLCall.glViewport 0 0 800 600,
          GLCall.glfwSetFramebufferSizeCallback ] ++
        shaderSetup w ++ verticesSetup w ++ (gameLoop w w.shouldClose w.frames).1 ++
        (if (gameLoop w w.shouldClose w.frames).2 then [GLCall.glfwTerminate] else []) := by
  simp [main, hw, hg]

theorem gameLoop_true (w : World) (fs : List Frame) :
    gameLoop w true fs = ([GLCall.glfwWindowShouldClose true], true) := by
  cases fs <;> rfl

theorem gameLoop_false_cons (w : World) (f : Frame) (fs : List Frame) :
    gameLoop w false (f :: fs) =
      (GLCall.glfwWindowShouldClose false ::
          ((loopBody w false f).1 ++ (gameLoop w (loopBody w false f).2 fs).1),
        (gameLoop w (loopBody w false f).2 fs).2) := rfl

theorem loopBody_trace (w : World) (flag : Bool) (f : Frame) :
    (loopBody w flag f).1 =
      (processInput flag f.key).1 ++ renderCommands w ++
        (pollEvents (processInput flag f.key).2 f).1 ++ [GLCall.glfwSwapBuffers] := rfl

theorem stdout_loopBody (w : World) (flag : Bool) (f : Frame) :
    stdout (loopBody w flag f).1 = [] := by
  rcases f with ⟨key, resize, closeWrite⟩
  rcases resize with _ | ⟨width, height⟩ <;>
    by_cases hk : key = GLFW_PRESS <;>
    simp [stdout, loopBody, processInput, pollEvents, renderCommands,
      framebuffer_size_callback, GLCall.isOutput, hk]

theorem stdout_gameLoop (w : World) (flag : Bool) (fs : List Frame) :
    stdout (gameLoop w flag fs).1 = [] := by
  induction fs generalizing flag with
  | nil => cases flag <;> simp [gameLoop, stdout, GLCall.isOutput]
  | cons f fs ih =>
    cases flag
    · have h1 := stdout_loopBody w false f
      have h2 := ih (loopBody w false f).2
      simp only [stdout] at h1 h2 ⊢
      simp [gameLoop_false_cons, GLCall.isOutput, h1, h2]
    · simp [gameLoop_true, stdout, GLCall.isOutput]

theorem stdout_shaderSetup (w : World) :
    stdout (shaderSetup w) =
      (if w.vertexStatus = 0 then
        [ GLCall.cout "ERROR::SHADER::VERTEX::COMPILATION_FAILED\n",
          GLCall.coutLog (getInfoLog 512 w.vertexLog), GLCall.endl ] else []) ++
      (if w.fragmentStatus = 0 then
        [ GLCall.cout "ERROR::SHADER::FRAGMENT::COMPILATION_FAILED\n",
          GLCall.coutLog (getInfoLog 512 w.fragmentLog), GLCall.endl ] else []) ++
      (if w.linkStatus = 0 then
        [ GLCall.cout "ERROR::SHADER_PROGRAM::LINK::FAILED\n",
          GLCall.coutLog (getInfoLog 512 w.linkLog), GLCall.endl ] else []) := by
  by_cases hv : w.vertexStatus = 0 <;> by_cases hf : w.fragmentStatus = 0 <;>
    by_cases hl : w.linkStatus = 0 <;>
    simp [stdout, shaderSetup, vertexSetup, fragmentSetup, programSetup, shaderCleanup,
      GLCall.isOutput, hv, hf, hl]

theorem stdout_main_of_loaded (w : World) (hw : w.windowCreated = true)
    (hg : w.gladLoaded = true) :
    stdout (main w).trace = stdout (shaderSetup w) := by
  have h := stdout_gameLoop w w.shouldClose w.frames
  rw [main_trace_of_loaded w hw hg]
  simp only [stdout, List.filter_append] at h ⊢
  rw [h]
  by_cases hl : (gameLoop w w.shouldClose w.frames).2 = true <;>
    simp [windowSetup, verticesSetup, GLCall.isOutput, hl]

/-! ## Error reports -/

theorem mem_stdout_iff (t : List GLCall) (c : GLCall) (hc : c.isOutput = true) :
    c ∈ stdout t ↔ c ∈ t := by
  simp [stdout, List.mem_filter, hc]

theorem shaderSetup_infix_main (w : World) (hw : w.windowCreated = true)
    (hg : w.gladLoaded = true) : shaderSetup w <:+: (main w).trace := by
  rw [main_trace_of_loaded w hw hg]
  refine ⟨windowSetup w ++
      [ GLCall.glfwMakeContextCurrent, GLCall.gladLoadGLLoader w.gladLoaded,
        GLCall.glViewport 0 0 800 600, GLCall.glfwSetFramebufferSizeCallback ],
    verticesSetup w ++ (gameLoop w w.shouldClose w.frames).1 ++
      (if (gameLoop w w.shouldClose w.frames).2 then [GLCall.glfwTerminate] else []), ?_⟩
  simp [List.append_assoc]

theorem getInfoLog_prefix_of_log (n : Nat) (log : List Char) : getInfoLog n log <+: log :=
  List.take_prefix _ _

theorem getInfoLog_length (log : List Char) : (getInfoLog 512 log).length + 1 ≤ 512 := by
  simp only [getInfoLog, List.length_take]
  omega

theorem getInfoLog_fits (log : List Char) (h : log.length + 1 ≤ 512) :
    getInfoLog 512 log = log := by
  simp only [getInfoLog]
  exact List.take_of_length_le (by omega)

/-- C7: once the shader set-up is reached, standard output is exactly the
vertex report if the vertex status is failed, then the fragment report if the
fragment status is failed, then the link report if the link status is failed,
each made of its tag, the driver's log of that object as read through the
buffer, and `endl`; each tag is printed if and only if its status is failed,
and the three tags are pairwise different. -/
theorem error_reports_match_failed_statuses (w : World)
    (hw : w.windowCreated = true) (hg : w.gladLoaded = true) :
    stdout (main w).trace =
      (if w.vertexStatus = 0 then
        [ GLCall.cout "ERROR::SHADER::VERTEX::COMPILATION_FAILED\n",
          GLCall.coutLog (getInfoLog 512 w.vertexLog), GLCall.endl ] else []) ++
      (if w.fragmentStatus = 0 then
        [ GLCall.cout "ERROR::SHADER::FRAGMENT::COMPILATION_FAILED\n",
          GLCall.coutLog (getInfoLog 512 w.fragmentLog), GLCall.endl ] else []) ++
      (if w.linkStatus = 0 then
        [ GLCall.cout "ERROR::SHADER_PROGRAM::LINK::FAILED\n",
          GLCall.coutLog (getInfoLog 512 w.linkLog), GLCall.endl ] else []) ∧
    (GLCall.cout "ERROR::SHADER::VERTEX::COMPILATION_FAILED\n" ∈ (main w).trace ↔
      w.vertexStatus = 0) ∧
    (GLCall.cout "ERROR::SHADER::FRAGMENT::COMPILATION_FAILED\n" ∈ (main w).trace ↔
      w.fragmentStatus = 0) ∧
    (GLCall.cout "ERROR::SHADER_PROGRAM::LINK::FAILED\n" ∈ (main w).trace ↔
      w.linkStatus = 0) ∧
    "ERROR::SHADER::VERTEX::COMPILATION_FAILED\n" ≠
      "ERROR::SHADER::FRAGMENT::COMPILATION_FAILED\n" ∧
    "ERROR::SHADER::VERTEX::COMPILATION_FAILED\n" ≠ "ERROR::SHADER_PROGRAM::LINK::FAILED\n" ∧
    "ERROR::SHADER::FRAGMENT::COMPILATION_FAILED\n" ≠
      "ERROR::SHADER_PROGRAM::LINK::FAILED\n" := by
  have hs : stdout (main w).trace = stdout (shaderSetup w) := stdout_main_of_loaded w hw hg
  refine ⟨hs.trans (stdout_shaderSetup w), ?_, ?_, ?_, by decide, by decide, by decide⟩
  · rw [← mem_stdout_iff _ (GLCall.cout _) rfl, hs, stdout_shaderSetup]
    by_cases hv : w.vertexStatus = 0 <;> by_cases hf : w.fragmentStatus = 0 <;>
      by_cases hl : w.linkStatus = 0 <;> simp [hv, hf, hl]
  · rw [← mem_stdout_iff _ (GLCall.cout _) rfl, hs, stdout_shaderSetup]
    by_cases hv : w.vertexStatus = 0 <;> by_cases hf : w.fragmentStatus = 0 <;>
      by_cases hl : w.linkStatus = 0 <;> simp [hv, hf, hl]
  · rw [← mem_stdout_iff _ (GLCall.cout _) rfl, hs, stdout_shaderSetup]
    by_cases hv : w.vertexStatus = 0 <;> by_cases hf : w.fragmentStatus = 0 <;>
      by_cases hl : w.linkStatus = 0 <;> simp [hv, hf, hl]

/-- Witness for C7: with the fragment compile and the link failing and the
vertex compile succeeding, exactly the fragment and link reports are printed,
in that order. -/
theorem error_reports_match_failed_statuses_witness :
    worldFragmentFails.windowCreated = true ∧ worldFragmentFails.gladLoaded = true ∧
    stdout (main worldFragmentFails).trace =
      [ GLCall.cout "ERROR::SHADER::FRAGMENT::COMPILATION_FAILED\n",
        GLCall.coutLog "0:2: syntax error".toList, GLCall.endl,
        GLCall.cout "ERROR::SHADER_PROGRAM::LINK::FAILED\n",
        GLCall.coutLog "fragment shader not compiled".toList, GLCall.endl ] :=
  ⟨rfl, rfl, (error_reports_match_failed_statuses worldFragmentFails rfl rfl).1.trans
    (by decide)⟩

/-! ## Diagnostic logs -/

theorem report_infix_vertexSetup (w : World) (h : w.vertexStatus = 0) :
    [ GLCall.cout "ERROR::SHADER::VERTEX::COMPILATION_FAILED\n",
      GLCall.coutLog (getInfoLog 512 w.vertexLog), GLCall.endl ] <:+: shaderSetup w := by
  refine ⟨[ GLCall.glCreateShader GLenum.GL_VERTEX_SHADER w.vertexShader,
      GLCall.glShaderSource w.vertexShader 1 vertexShaderSource,
      GLCall.glCompileShader w.vertexShader,
      GLCall.glGetShaderiv w.vertexShader GLenum.GL_COMPILE_STATUS w.vertexStatus,
      GLCall.glGetShaderInfoLog w.vertexShader 512 (getInfoLog 512 w.vertexLog) ],
    fragmentSetup w ++ programSetup w ++ shaderCleanup w, ?_⟩
  simp [shaderSetup, vertexSetup, h]

theorem report_infix_fragmentSetup (w : World) (h : w.fragmentStatus = 0) :
    [ GLCall.cout "ERROR::SHADER::FRAGMENT::COMPILATION_FAILED\n",
      GLCall.coutLog (getInfoLog 512 w.fragmentLog), GLCall.endl ] <:+: shaderSetup w := by
  refine ⟨vertexSetup w ++
    [ GLCall.glCreateShader GLenum.GL_FRAGMENT_SHADER w.fragmentShader,
      GLCall.glShaderSource w.fragmentShader 1 fragmentShaderSource,
      GLCall.glCompileShader w.fragmentShader,
      GLCall.glGetShaderiv w.fragmentShader GLenum.GL_COMPILE_STATUS w.fragmentStatus,
      GLCall.glGetShaderInfoLog w.fragmentShader 512 (getInfoLog 512 w.fragmentLog) ],
    programSetup w ++ shaderCleanup w, ?_⟩
  simp [shaderSetup, fragmentSetup, h]

theorem report_infix_programSetup (w : World) (h : w.linkStatus = 0) :
    [ GLCall.cout "ERROR::SHADER_PROGRAM::LINK::FAILED\n",
      GLCall.coutLog (getInfoLog 512 w.linkLog), GLCall.endl ] <:+: shaderSetup w := by
  refine ⟨vertexSetup w ++ fragmentSetup w ++
    [ GLCall.glCreateProgram w.shaderProgram,
      GLCall.glAttachShader w.shaderProgram w.vertexShader,
      GLCall.glAttachShader w.shaderProgram w.fragmentShader,
      GLCall.glLinkProgram w.shaderProgram,
      GLCall.glGetProgramiv w.shaderProgram GLenum.GL_LINK_STATUS w.linkStatus,
      GLCall.glGetProgramInfoLog w.shaderProgram 512 (getInfoLog 512 w.linkLog) ],
    shaderCleanup w, ?_⟩
  simp [shaderSetup, programSetup, h]

theorem coutLog_mem_main (w : World) (hw : w.windowCreated = true)
    (hg : w.gladLoaded = true) (text : List Char)
    (h : GLCall.coutLog text ∈ (main w).trace) :
    (w.vertexStatus = 0 ∧ text = getInfoLog 512 w.vertexLog) ∨
    (w.fragmentStatus = 0 ∧ text = getInfoLog 512 w.fragmentLog) ∨
    (w.linkStatus = 0 ∧ text = getInfoLog 512 w.linkLog) := by
  rw [← mem_stdout_iff _ (GLCall.coutLog _) rfl, stdout_main_of_loaded w hw hg,
    stdout_shaderSetup] at h
  by_cases hv : w.vertexStatus = 0 <;> by_cases hf : w.fragmentStatus = 0 <;>
    by_cases hl : w.linkStatus = 0 <;> simp [hv, hf, hl] at h ⊢ <;> tauto

/-- C8: once the shader set-up is reached, every log text printed by the run is
the text read through the 512-byte buffer from the log of a stage whose status
is failed: it is a prefix of that log, it fills at most 512 bytes with its
terminator (at most 511 characters), it is the whole log when the log fits, and
it is the first 511 characters when the log is longer.  Each of the three
reports, when its status is failed, is printed with such a text right after its
tag. -/
theorem reported_log_bounded_by_buffer (w : World)
    (hw : w.windowCreated = true) (hg : w.gladLoaded = true) :
    (∀ text, GLCall.coutLog text ∈ (main w).trace →
      ∃ log, ((w.vertexStatus = 0 ∧ log = w.vertexLog) ∨
              (w.fragmentStatus = 0 ∧ log = w.fragmentLog) ∨
              (w.linkStatus = 0 ∧ log = w.linkLog)) ∧
        text <+: log ∧ text.length + 1 ≤ 512 ∧
        (log.length + 1 ≤ 512 → text = log) ∧
        (512 < log.length + 1 → text = log.take 511)) ∧
    (w.vertexStatus = 0 →
      [ GLCall.cout "ERROR::SHADER::VERTEX::COMPILATION_FAILED\n",
        GLCall.coutLog (w.vertexLog.take 511), GLCall.endl ] <:+: (main w).trace) ∧
    (w.fragmentStatus = 0 →
      [ GLCall.cout "ERROR::SHADER::FRAGMENT::COMPILATION_FAILED\n",
        GLCall.coutLog (w.fragmentLog.take 511), GLCall.endl ] <:+: (main w).trace) ∧
    (w.linkStatus = 0 →
      [ GLCall.cout "ERROR::SHADER_PROGRAM::LINK::FAILED\n",
        GLCall.coutLog (w.linkLog.take 511), GLCall.endl ] <:+: (main w).trace) := by
  have key : ∀ log : List Char, getInfoLog 512 log <+: log ∧
      (getInfoLog 512 log).length + 1 ≤ 512 ∧
      (log.length + 1 ≤ 512 → getInfoLog 512 log = log) ∧
      (512 < log.length + 1 → getInfoLog 512 log = log.take 511) :=
    fun log => ⟨getInfoLog_prefix_of_log 512 log, getInfoLog_length log, getInfoLog_fits log,
      fun _ => rfl⟩
  refine ⟨?_, ?_, ?_, ?_⟩
  · intro text h
    rcases coutLog_mem_main w hw hg text h with ⟨hs, rfl⟩ | ⟨hs, rfl⟩ | ⟨hs, rfl⟩
    · exact ⟨w.vertexLog, Or.inl ⟨hs, rfl⟩, key _⟩
    · exact ⟨w.fragmentLog, Or.inr (Or.inl ⟨hs, rfl⟩), key _⟩
    · exact ⟨w.linkLog, Or.inr (Or.inr ⟨hs, rfl⟩), key _⟩
  · exact fun h => (report_infix_vertexSetup w h).trans (shaderSetup_infix_main w hw hg)
  · exact fun h => (report_infix_fragmentSetup w h).trans (shaderSetup_infix_main w hw hg)
  · exact fun h => (report_infix_programSetup w h).trans (shaderSetup_infix_main w hw hg)

/-- Witness for C8: a link log of 600 characters is printed as its first 511
characters. -/
theorem reported_log_bounded_by_buffer_witness :
    worldLongLog.windowCreated = true ∧ worldLongLog.gladLoaded = true ∧
    worldLongLog.linkLog.length = 600 ∧
    (worldLongLog.linkLog.take 511).length = 511 ∧
    [ GLCall.cout "ERROR::SHADER_PROGRAM::LINK::FAILED\n",
      GLCall.coutLog (worldLongLog.linkLog.take 511), GLCall.endl ] <:+:
        (main worldLongLog).trace :=
  ⟨rfl, rfl,
    (by show (List.replicate 600 'x').length = 600
        rw [List.length_replicate]),
    (by show ((List.replicate 600 'x').take 511).length = 511
        rw [List.length_take, List.length_replicate]
        omega),
    (reported_log_bounded_by_buffer worldLongLog rfl rfl).2.2.2 rfl⟩

/-! ## Release of the stage handles and live objects -/

theorem loopBody_isLoopCall (w : World) (flag : Bool) (f : Frame) :
    ∀ c ∈ (loopBody w flag f).1, c.isLoopCall = true := by
  intro c hc
  rcases f with ⟨key, resize, closeWrite⟩
  rcases resize with _ | ⟨width, height⟩ <;>
    by_cases hk : key = GLFW_PRESS <;>
    simp [loopBody, processInput, pollEvents, renderCommands,
      framebuffer_size_callback, hk] at hc <;>
    casesm* _ ∨ _ <;> subst_vars <;> rfl

theorem gameLoop_isLoopCall (w : World) (flag : Bool) (fs : List Frame) :
    ∀ c ∈ (gameLoop w flag fs).1, c.isLoopCall = true := by
  induction fs generalizing flag with
  | nil => cases flag <;> simp [gameLoop, GLCall.isLoopCall]
  | cons f fs ih =>
    cases flag
    · intro c hc
      rw [gameLoop_false_cons] at hc
      simp only [List.mem_cons, List.mem_append] at hc
      rcases hc with rfl | hc | hc
      · rfl
      · exact loopBody_isLoopCall w false f c hc
      · exact ih _ c hc
    · simp [gameLoop_true, GLCall.isLoopCall]

theorem gameLoop_no_deleteShader (w : World) (flag : Bool) (fs : List Frame) :
    ∀ c ∈ (gameLoop w flag fs).1, c.isDeleteShader = false := by
  intro c hc
  have h := gameLoop_isLoopCall w flag fs c hc
  cases c <;> first | rfl | cases h

theorem gameLoop_no_buildStep (w : World) (flag : Bool) (fs : List Frame) :
    (gameLoop w flag fs).1.filter GLCall.isBuildStep = [] := by
  rw [List.filter_eq_nil_iff]
  intro c hc
  have h := gameLoop_isLoopCall w flag fs c hc
  cases c <;> first | (simp [GLCall.isLoopCall] at h; done) | simp [GLCall.isBuildStep]



/-- C5: once the shader set-up is reached, whatever the three statuses are, the
trace is: calls that neither release a shader nor draw, then `glLinkProgram`,
then again calls that neither release a shader nor draw, then
`glDeleteShader(vertexShader)` and `glDeleteShader(fragmentShader)`, then
calls that release no shader.  So each stage handle is released exactly once,
after the link attempt and before every draw call. -/
theorem stage_handles_released_once (w : World)
    (hw : w.windowCreated = true) (hg : w.gladLoaded = true) :
    ∃ pre mid post,
      (main w).trace =
        pre ++ GLCall.glLinkProgram w.shaderProgram :: mid ++
          GLCall.glDeleteShader w.vertexShader ::
          GLCall.glDeleteShader w.fragmentShader :: post ∧
      (∀ c ∈ pre ++ mid, c.isDeleteShader = false ∧ c.isDraw = false) ∧
      (∀ c ∈ post, c.isDeleteShader = false) := by
  refine ⟨windowSetup w ++
      [ GLCall.glfwMakeContextCurrent, GLCall.gladLoadGLLoader w.gladLoaded,
        GLCall.glViewport 0 0 800 600, GLCall.glfwSetFramebufferSizeCallback ] ++
      vertexSetup w ++ fragmentSetup w ++
      [ GLCall.glCreateProgram w.shaderProgram,
        GLCall.glAttachShader w.shaderProgram w.vertexShader,
        GLCall.glAttachShader w.shaderProgram w.fragmentShader ],
    GLCall.glGetProgramiv w.shaderProgram GLenum.GL_LINK_STATUS w.linkStatus ::
      (if w.linkStatus = 0 then
        [ GLCall.glGetProgramInfoLog w.shaderProgram 512 (getInfoLog 512 w.linkLog),
          GLCall.cout "ERROR::SHADER_PROGRAM::LINK::FAILED\n",
          GLCall.coutLog (getInfoLog 512 w.linkLog), GLCall.endl ] else []),
    verticesSetup w ++ (gameLoop w w.shouldClose w.frames).1 ++
      (if (gameLoop w w.shouldClose w.frames).2 then [GLCall.glfwTerminate] else []),
    ?_, ?_, ?_⟩
  · rw [main_trace_of_loaded w hw hg]
    simp [shaderSetup, programSetup, shaderCleanup, List.append_assoc]
  · intro c hc
    by_cases hv : w.vertexStatus = 0 <;> by_cases hf : w.fragmentStatus = 0 <;>
      by_cases hl : w.linkStatus = 0 <;>
      simp [windowSetup, vertexSetup, fragmentSetup, hv, hf, hl] at hc <;>
      casesm* _ ∨ _ <;> subst_vars <;> exact ⟨rfl, rfl⟩
  · intro c hc
    simp only [List.mem_append] at hc
    rcases hc with (hc | hc) | hc
    · simp [verticesSetup] at hc
      casesm* _ ∨ _ <;> subst_vars <;> rfl
    · exact gameLoop_no_deleteShader w _ _ c hc
    · by_cases hl : (gameLoop w w.shouldClose w.frames).2 = true <;> simp [hl] at hc
      subst hc
      rfl

/-- Witness for C5: with the link failing, the two releases are the only ones
in the run. -/
theorem stage_handles_released_once_witness :
    worldLinkFails.windowCreated = true ∧ worldLinkFails.gladLoaded = true ∧
    ∃ pre mid post,
      (main worldLinkFails).trace =
        pre ++ GLCall.glLinkProgram 3 :: mid ++
          GLCall.glDeleteShader 1 :: GLCall.glDeleteShader 2 :: post ∧
      (∀ c ∈ pre ++ mid, c.isDeleteShader = false ∧ c.isDraw = false) ∧
      (∀ c ∈ post, c.isDeleteShader = false) :=
  ⟨rfl, rfl, stage_handles_released_once worldLinkFails rfl rfl⟩

theorem liveAfter_shaderSetup (w : World) (b : GLObjects)
    (hv : w.vertexShader ≠ 0) (hf : w.fragmentShader ≠ 0) (hp : w.shaderProgram ≠ 0) :
    liveAfter b (shaderSetup w) =
      { shaders := insert w.fragmentShader (insert w.vertexShader b.shaders),
        programs := insert w.shaderProgram b.programs,
        attached := insert (w.shaderProgram, w.fragmentShader)
          (insert (w.shaderProgram, w.vertexShader) b.attached),
        flagged := insert w.fragmentShader (insert w.vertexShader b.flagged) } := by
  by_cases hvs : w.vertexStatus = 0 <;> by_cases hfs : w.fragmentStatus = 0 <;>
    by_cases hl : w.linkStatus = 0 <;>
    simp [liveAfter, shaderSetup, vertexSetup, fragmentSetup, programSetup, shaderCleanup,
      liveAfterCall, hv, hf, hp, hvs, hfs, hl]

/-- C4, as the code has it: when the three creations return objects, then for
every combination of the three statuses the shader set-up section leaves the
context with the objects it had before plus the program and both stages.  The
two stages are attached to the program and `glDeleteShader` has only flagged
them for deletion; the program is never deleted.  So the set of live objects
after the section is the set before it together with the three handles, and
for fresh handles it differs from the set before it by exactly these three,
whether the steps succeeded or failed. -/
theorem live_objects_after_shaderSetup (w : World) (b : GLObjects)
    (hv : w.vertexShader ≠ 0) (hf : w.fragmentShader ≠ 0) (hp : w.shaderProgram ≠ 0) :
    liveAfter b (shaderSetup w) =
      { shaders := insert w.fragmentShader (insert w.vertexShader b.shaders),
        programs := insert w.shaderProgram b.programs,
        attached := insert (w.shaderProgram, w.fragmentShader)
          (insert (w.shaderProgram, w.vertexShader) b.attached),
        flagged := insert w.fragmentShader (insert w.vertexShader b.flagged) } ∧
    (liveAfter b (shaderSetup w)).live =
      b.live ∪ {w.vertexShader, w.fragmentShader, w.shaderProgram} ∧
    (w.vertexShader ∉ b.live → w.fragmentShader ∉ b.live → w.shaderProgram ∉ b.live →
      (liveAfter b (shaderSetup w)).live \ b.live =
        {w.vertexShader, w.fragmentShader, w.shaderProgram}) := by
  have hlive : (liveAfter b (shaderSetup w)).live =
      b.live ∪ {w.vertexShader, w.fragmentShader, w.shaderProgram} := by
    rw [liveAfter_shaderSetup w b hv hf hp]
    ext x
    simp only [GLObjects.live, Finset.mem_union, Finset.mem_insert, Finset.mem_singleton]
    tauto
  refine ⟨liveAfter_shaderSetup w b hv hf hp, hlive, ?_⟩
  intro hvb hfb hpb
  rw [hlive]
  ext x
  simp only [Finset.mem_sdiff, Finset.mem_union, Finset.mem_insert, Finset.mem_singleton]
  constructor
  · rintro ⟨h | h, hx⟩
    · exact absurd h hx
    · exact h
  · rintro (h | h | h)
    · subst h
      exact ⟨Or.inr (Or.inl rfl), hvb⟩
    · subst h
      exact ⟨Or.inr (Or.inr (Or.inl rfl)), hfb⟩
    · subst h
      exact ⟨Or.inr (Or.inr (Or.inr rfl)), hpb⟩

/-- Witness for C4: with the link failing, the section leaves the stages 1 and
2 and the program 3 alive on top of the objects 10 and 11 that were live
before. -/
theorem live_objects_after_shaderSetup_witness :
    worldLinkFails.linkStatus = 0 ∧
    worldLinkFails.vertexShader ≠ 0 ∧ worldLinkFails.fragmentShader ≠ 0 ∧
    worldLinkFails.shaderProgram ≠ 0 ∧
    worldLinkFails.vertexShader ∉ objectsBefore.live ∧
    worldLinkFails.fragmentShader ∉ objectsBefore.live ∧
    worldLinkFails.shaderProgram ∉ objectsBefore.live ∧
    (liveAfter objectsBefore (shaderSetup worldLinkFails)).live \ objectsBefore.live =
      {1, 2, 3} :=
  ⟨rfl, by decide, by decide, by decide, by decide, by decide, by decide,
    (live_objects_after_shaderSetup worldLinkFails objectsBefore (by decide) (by decide)
      (by decide)).2.2 (by decide) (by decide) (by decide)⟩

/-- Counterexample to C4 as stated: when the link status is failed the section
does not leave the set of live objects as it was, and when all three steps
succeed it leaves more than the program handle: in both runs the stages 1 and
2 and the program 3 are alive after it. -/
theorem live_objects_link_failure_counterexample :
    worldLinkFails.linkStatus = 0 ∧
    (liveAfter noObjects (shaderSetup worldLinkFails)).live = {1, 2, 3} ∧
    (liveAfter noObjects (shaderSetup worldLinkFails)).live ≠ noObjects.live ∧
    worldAllOk.vertexStatus ≠ 0 ∧ worldAllOk.fragmentStatus ≠ 0 ∧
    worldAllOk.linkStatus ≠ 0 ∧
    (liveAfter noObjects (shaderSetup worldAllOk)).live = {1, 2, 3} ∧
    (liveAfter noObjects (shaderSetup worldAllOk)).live ≠
      noObjects.live ∪ {worldAllOk.shaderProgram} := by
  decide

/-! ## Use of the program handle -/

theorem useProgram_mem_loopBody (w : World) (flag : Bool) (f : Frame) :
    GLCall.glUseProgram w.shaderProgram ∈ (loopBody w flag f).1 := by
  simp [loopBody_trace, renderCommands]

/-- C1, as the code has it: the program handle is passed to `glUseProgram` in
every pass of the render loop, whatever the link status was.  In a run that
reaches the shader set-up and makes at least one pass, the handle is used after
the link status query, failed or not; a failed link status only makes the run
print the link report, and no `glUseProgram` comes before that report. -/
theorem program_used_whatever_link_status (w : World)
    (hw : w.windowCreated = true) (hg : w.gladLoaded = true) :
    (∀ flag f, GLCall.glUseProgram w.shaderProgram ∈ (loopBody w flag f).1) ∧
    (w.shouldClose = false → w.frames ≠ [] →
      ∃ pre post,
        (main w).trace =
          pre ++ GLCall.glGetProgramiv w.shaderProgram GLenum.GL_LINK_STATUS w.linkStatus ::
            post ∧
        GLCall.glUseProgram w.shaderProgram ∈ post) ∧
    (w.linkStatus = 0 →
      ∃ pre post,
        (main w).trace =
          pre ++ [ GLCall.cout "ERROR::SHADER_PROGRAM::LINK::FAILED\n",
                   GLCall.coutLog (getInfoLog 512 w.linkLog), GLCall.endl ] ++ post ∧
        ∀ program, GLCall.glUseProgram program ∉ pre) := by
  refine ⟨useProgram_mem_loopBody w, ?_, ?_⟩
  · intro hc hf
    refine ⟨windowSetup w ++
        [ GLCall.glfwMakeContextCurrent, GLCall.gladLoadGLLoader w.gladLoaded,
          GLCall.glViewport 0 0 800 600, GLCall.glfwSetFramebufferSizeCallback ] ++
        vertexSetup w ++ fragmentSetup w ++
        [ GLCall.glCreateProgram w.shaderProgram,
          GLCall.glAttachShader w.shaderProgram w.vertexShader,
          GLCall.glAttachShader w.shaderProgram w.fragmentShader,
          GLCall.glLinkProgram w.shaderProgram ],
      (if w.linkStatus = 0 then
        [ GLCall.glGetProgramInfoLog w.shaderProgram 512 (getInfoLog 512 w.linkLog),
          GLCall.cout "ERROR::SHADER_PROGRAM::LINK::FAILED\n",
          GLCall.coutLog (getInfoLog 512 w.linkLog), GLCall.endl ] else []) ++
        shaderCleanup w ++ verticesSetup w ++ (gameLoop w w.shouldClose w.frames).1 ++
        (if (gameLoop w w.shouldClose w.frames).2 then [GLCall.glfwTerminate] else []),
      ?_, ?_⟩
    · rw [main_trace_of_loaded w hw hg]
      simp [shaderSetup, programSetup, List.append_assoc]
    · obtain ⟨f, fs, hfs⟩ := List.exists_cons_of_ne_nil hf
      have hu := useProgram_mem_loopBody w false f
      simp only [List.mem_append]
      refine Or.inl (Or.inr ?_)
      rw [hc, hfs, gameLoop_false_cons]
      simp only [List.mem_cons, List.mem_append]
      exact Or.inr (Or.inl hu)
  · intro hl
    refine ⟨windowSetup w ++
        [ GLCall.glfwMakeContextCurrent, GLCall.gladLoadGLLoader w.gladLoaded,
          GLCall.glViewport 0 0 800 600, GLCall.glfwSetFramebufferSizeCallback ] ++
        vertexSetup w ++ fragmentSetup w ++
        [ GLCall.glCreateProgram w.shaderProgram,
          GLCall.glAttachShader w.shaderProgram w.vertexShader,
          GLCall.glAttachShader w.shaderProgram w.fragmentShader,
          GLCall.glLinkProgram w.shaderProgram,
          GLCall.glGetProgramiv w.shaderProgram GLenum.GL_LINK_STATUS w.linkStatus,
          GLCall.glGetProgramInfoLog w.shaderProgram 512 (getInfoLog 512 w.linkLog) ],
      shaderCleanup w ++ verticesSetup w ++ (gameLoop w w.shouldClose w.frames).1 ++
        (if (gameLoop w w.shouldClose w.frames).2 then [GLCall.glfwTerminate] else []),
      ?_, ?_⟩
    · rw [main_trace_of_loaded w hw hg]
      simp [shaderSetup, programSetup, hl, List.append_assoc]
    · intro program
      by_cases hv : w.vertexStatus = 0 <;> by_cases hf : w.fragmentStatus = 0 <;>
        simp [windowSetup, vertexSetup, fragmentSetup, hv, hf]

/-- Witness for C1 as amended: with the link failing, program 3 is used after
the failed status query. -/
theorem program_used_whatever_link_status_witness :
    worldLinkFails.windowCreated = true ∧ worldLinkFails.gladLoaded = true ∧
    worldLinkFails.shouldClose = false ∧ worldLinkFails.frames ≠ [] ∧
    ∃ pre post,
      (main worldLinkFails).trace =
        pre ++ GLCall.glGetProgramiv 3 GLenum.GL_LINK_STATUS 0 :: post ∧
      GLCall.glUseProgram 3 ∈ post :=
  ⟨rfl, rfl, rfl, by decide,
    (program_used_whatever_link_status worldLinkFails rfl rfl).2.1 rfl (by decide)⟩

/-- Counterexample to C1 as stated: the link status query reports failure and
the program handle is used by `glUseProgram` afterwards. -/
theorem program_used_after_link_failure_counterexample :
    worldLinkFails.linkStatus = 0 ∧
    (main worldLinkFails).trace =
      (main worldLinkFails).trace.take 21 ++
        GLCall.glGetProgramiv worldLinkFails.shaderProgram GLenum.GL_LINK_STATUS 0 ::
        (main worldLinkFails).trace.drop 22 ∧
    GLCall.glUseProgram worldLinkFails.shaderProgram ∈
      (main worldLinkFails).trace.drop 22 := by
  decide

/-! ## The build after a failed step -/

/-- C2, as the code has it: when the vertex compile status is failed, the run
prints the vertex report and goes on: after that report it creates the fragment
stage, and the build steps that follow are exactly one compile of the fragment
stage, one `glCreateProgram` and one `glLinkProgram`. -/
theorem build_continues_after_vertex_failure (w : World)
    (hw : w.windowCreated = true) (hg : w.gladLoaded = true)
    (hv : w.vertexStatus = 0) :
    ∃ pre post,
      (main w).trace =
        pre ++ [ GLCall.glGetShaderiv w.vertexShader GLenum.GL_COMPILE_STATUS 0,
                 GLCall.glGetShaderInfoLog w.vertexShader 512 (getInfoLog 512 w.vertexLog),
                 GLCall.cout "ERROR::SHADER::VERTEX::COMPILATION_FAILED\n",
                 GLCall.coutLog (getInfoLog 512 w.vertexLog), GLCall.endl ] ++ post ∧
      GLCall.glCreateShader GLenum.GL_FRAGMENT_SHADER w.fragmentShader ∈ post ∧
      post.filter GLCall.isBuildStep =
        [ GLCall.glCompileShader w.fragmentShader,
          GLCall.glCreateProgram w.shaderProgram,
          GLCall.glLinkProgram w.shaderProgram ] := by
  refine ⟨windowSetup w ++
      [ GLCall.glfwMakeContextCurrent, GLCall.gladLoadGLLoader w.gladLoaded,
        GLCall.glViewport 0 0 800 600, GLCall.glfwSetFramebufferSizeCallback,
        GLCall.glCreateShader GLenum.GL_VERTEX_SHADER w.vertexShader,
        GLCall.glShaderSource w.vertexShader 1 vertexShaderSource,
        GLCall.glCompileShader w.vertexShader ],
    fragmentSetup w ++ programSetup w ++ shaderCleanup w ++ verticesSetup w ++
      (gameLoop w w.shouldClose w.frames).1 ++
      (if (gameLoop w w.shouldClose w.frames).2 then [GLCall.glfwTerminate] else []),
    ?_, ?_, ?_⟩
  · rw [main_trace_of_loaded w hw hg]
    simp [shaderSetup, vertexSetup, hv, List.append_assoc]
  · simp [fragmentSetup]
  · have hloop := gameLoop_no_buildStep w w.shouldClose w.frames
    simp only [List.filter_append, hloop]
    by_cases hf : w.fragmentStatus = 0 <;> by_cases hl : w.linkStatus = 0 <;>
      by_cases he : (gameLoop w w.shouldClose w.frames).2 = true <;>
      simp [fragmentSetup, programSetup, shaderCleanup, verticesSetup,
        GLCall.isBuildStep, hf, hl, he]

/-- Witness for C2 as amended: in the world whose vertex shader fails, the
fragment stage 2 is compiled and program 3 is created and linked after the
vertex report. -/
theorem build_continues_after_vertex_failure_witness :
    worldVertexFails.windowCreated = true ∧ worldVertexFails.gladLoaded = true ∧
    worldVertexFails.vertexStatus = 0 ∧
    ∃ pre post,
      (main worldVertexFails).trace =
        pre ++ [ GLCall.glGetShaderiv 1 GLenum.GL_COMPILE_STATUS 0,
                 GLCall.glGetShaderInfoLog 1 512 (getInfoLog 512 worldVertexFails.vertexLog),
                 GLCall.cout "ERROR::SHADER::VERTEX::COMPILATION_FAILED\n",
                 GLCall.coutLog (getInfoLog 512 worldVertexFails.vertexLog),
                 GLCall.endl ] ++ post ∧
      GLCall.glCreateShader GLenum.GL_FRAGMENT_SHADER 2 ∈ post ∧
      post.filter GLCall.isBuildStep =
        [ GLCall.glCompileShader 2, GLCall.glCreateProgram 3, GLCall.glLinkProgram 3 ] :=
  ⟨rfl, rfl, rfl, build_continues_after_vertex_failure worldVertexFails rfl rfl rfl⟩

/-- Counterexample to C2 as stated: the vertex compile status is failed, and
after the status query the run still compiles the fragment stage once and
creates and links a program. -/
theorem fragment_compiled_after_vertex_failure_counterexample :
    worldVertexFails.vertexStatus = 0 ∧
    (main worldVertexFails).trace =
      (main worldVertexFails).trace.take 12 ++
        GLCall.glGetShaderiv worldVertexFails.vertexShader GLenum.GL_COMPILE_STATUS 0 ::
        (main worldVertexFails).trace.drop 13 ∧
    ((main worldVertexFails).trace.drop 13).count
      (GLCall.glCompileShader worldVertexFails.fragmentShader) = 1 ∧
    GLCall.glCreateShader GLenum.GL_FRAGMENT_SHADER worldVertexFails.fragmentShader ∈
      (main worldVertexFails).trace.drop 13 ∧
    GLCall.glCreateProgram worldVertexFails.shaderProgram ∈
      (main worldVertexFails).trace.drop 13 ∧
    GLCall.glLinkProgram worldVertexFails.shaderProgram ∈
      (main worldVertexFails).trace.drop 13 := by
  decide

/-- C3, as the code has it: when the vertex stage compiles and the fragment
compile status is failed, the run prints the fragment report and no vertex
report, and goes on: right after the fragment report it creates the program,
attaches the vertex stage and the fragment stage to it, links it and queries
the link status; it prints the link report as well exactly when the link status
is failed; then it releases the vertex stage handle and the fragment stage
handle with `glDeleteShader`. -/
theorem link_attempted_after_fragment_failure (w : World)
    (hw : w.windowCreated = true) (hg : w.gladLoaded = true)
    (hv : w.vertexStatus ≠ 0) (hf : w.fragmentStatus = 0) :
    stdout (main w).trace =
      [ GLCall.cout "ERROR::SHADER::FRAGMENT::COMPILATION_FAILED\n",
        GLCall.coutLog (getInfoLog 512 w.fragmentLog), GLCall.endl ] ++
      (if w.linkStatus = 0 then
        [ GLCall.cout "ERROR::SHADER_PROGRAM::LINK::FAILED\n",
          GLCall.coutLog (getInfoLog 512 w.linkLog), GLCall.endl ] else []) ∧
    ∃ pre post,
      (main w).trace =
        pre ++ [ GLCall.cout "ERROR::SHADER::FRAGMENT::COMPILATION_FAILED\n",
                 GLCall.coutLog (getInfoLog 512 w.fragmentLog), GLCall.endl ] ++
          [ GLCall.glCreateProgram w.shaderProgram,
            GLCall.glAttachShader w.shaderProgram w.vertexShader,
            GLCall.glAttachShader w.shaderProgram w.fragmentShader,
            GLCall.glLinkProgram w.shaderProgram,
            GLCall.glGetProgramiv w.shaderProgram GLenum.GL_LINK_STATUS w.linkStatus ] ++
          (if w.linkStatus = 0 then
            [ GLCall.glGetProgramInfoLog w.shaderProgram 512 (getInfoLog 512 w.linkLog),
              GLCall.cout "ERROR::SHADER_PROGRAM::LINK::FAILED\n",
              GLCall.coutLog (getInfoLog 512 w.linkLog), GLCall.endl ] else []) ++
          [ GLCall.glDeleteShader w.vertexShader,
            GLCall.glDeleteShader w.fragmentShader ] ++ post ∧
      (∀ c ∈ pre, c.isOutput = false) := by
  constructor
  · rw [stdout_main_of_loaded w hw hg, stdout_shaderSetup]
    simp [hv, hf]
  · refine ⟨windowSetup w ++
        [ GLCall.glfwMakeContextCurrent, GLCall.gladLoadGLLoader w.gladLoaded,
          GLCall.glViewport 0 0 800 600, GLCall.glfwSetFramebufferSizeCallback ] ++
        vertexSetup w ++
        [ GLCall.glCreateShader GLenum.GL_FRAGMENT_SHADER w.fragmentShader,
          GLCall.glShaderSource w.fragmentShader 1 fragmentShaderSource,
          GLCall.glCompileShader w.fragmentShader,
          GLCall.glGetShaderiv w.fragmentShader GLenum.GL_COMPILE_STATUS w.fragmentStatus,
          GLCall.glGetShaderInfoLog w.fragmentShader 512 (getInfoLog 512 w.fragmentLog) ],
      verticesSetup w ++ (gameLoop w w.shouldClose w.frames).1 ++
        (if (gameLoop w w.shouldClose w.frames).2 then [GLCall.glfwTerminate] else []),
      ?_, ?_⟩
    · rw [main_trace_of_loaded w hw hg]
      simp [shaderSetup, fragmentSetup, programSetup, shaderCleanup, hf, List.append_assoc]
    · intro c hc
      simp [windowSetup, vertexSetup, hv] at hc
      casesm* _ ∨ _ <;> subst_vars <;> rfl

/-- Witness for C3 as amended: in the world whose fragment shader and link
fail, both the fragment report and the link report are printed. -/
theorem link_attempted_after_fragment_failure_witness :
    worldFragmentFails.windowCreated = true ∧ worldFragmentFails.gladLoaded = true ∧
    worldFragmentFails.vertexStatus ≠ 0 ∧ worldFragmentFails.fragmentStatus = 0 ∧
    stdout (main worldFragmentFails).trace =
      [ GLCall.cout "ERROR::SHADER::FRAGMENT::COMPILATION_FAILED\n",
        GLCall.coutLog (getInfoLog 512 worldFragmentFails.fragmentLog), GLCall.endl,
        GLCall.cout "ERROR::SHADER_PROGRAM::LINK::FAILED\n",
        GLCall.coutLog (getInfoLog 512 worldFragmentFails.linkLog), GLCall.endl ] :=
  ⟨rfl, rfl, by decide, rfl,
    (link_attempted_after_fragment_failure worldFragmentFails rfl rfl (by decide) rfl).1⟩

/-- Counterexample to C3 as stated: the vertex stage compiles, the fragment
compile status is failed, and the run still links the program and prints a link
report besides the fragment report. -/
theorem link_after_fragment_failure_counterexample :
    worldFragmentFails.vertexStatus ≠ 0 ∧ worldFragmentFails.fragmentStatus = 0 ∧
    GLCall.glLinkProgram worldFragmentFails.shaderProgram ∈
      (main worldFragmentFails).trace ∧
    GLCall.cout "ERROR::SHADER_PROGRAM::LINK::FAILED\n" ∈
      stdout (main worldFragmentFails).trace := by
  decide

/-- C6, as the code has it: when both compile statuses are successful the run
prints no compile report and queries the link status; it prints nothing at all
exactly when the link status is successful too, and prints the link report,
and only it, when the link status is failed. -/
theorem build_outcome_after_successful_compiles (w : World)
    (hw : w.windowCreated = true) (hg : w.gladLoaded = true)
    (hv : w.vertexStatus ≠ 0) (hf : w.fragmentStatus ≠ 0) :
    GLCall.glGetProgramiv w.shaderProgram GLenum.GL_LINK_STATUS w.linkStatus ∈
      (main w).trace ∧
    (stdout (main w).trace = [] ↔ w.linkStatus ≠ 0) ∧
    (w.linkStatus = 0 →
      stdout (main w).trace =
        [ GLCall.cout "ERROR::SHADER_PROGRAM::LINK::FAILED\n",
          GLCall.coutLog (getInfoLog 512 w.linkLog), GLCall.endl ]) := by
  refine ⟨?_, ?_, ?_⟩
  · apply (shaderSetup_infix_main w hw hg).subset
    simp [shaderSetup, programSetup]
  · rw [stdout_main_of_loaded w hw hg, stdout_shaderSetup]
    by_cases hl : w.linkStatus = 0 <;> simp [hv, hf, hl]
  · intro hl
    rw [stdout_main_of_loaded w hw hg, stdout_shaderSetup]
    simp [hv, hf, hl]

/-- Witness for C6 as amended: in the world where everything succeeds, nothing
is printed. -/
theorem build_outcome_after_successful_compiles_witness :
    worldAllOk.windowCreated = true ∧ worldAllOk.gladLoaded = true ∧
    worldAllOk.vertexStatus ≠ 0 ∧ worldAllOk.fragmentStatus ≠ 0 ∧
    worldAllOk.linkStatus ≠ 0 ∧ stdout (main worldAllOk).trace = [] :=
  ⟨rfl, rfl, by decide, by decide, by decide,
    (build_outcome_after_successful_compiles worldAllOk rfl rfl (by decide)
      (by decide)).2.1.mpr (by decide)⟩

/-- Counterexample to C6 as stated: both compile statuses are successful, yet
the link status that is queried is failed and the run prints a link report. -/
theorem link_failure_after_successful_compiles_counterexample :
    worldLinkFails.vertexStatus ≠ 0 ∧ worldLinkFails.fragmentStatus ≠ 0 ∧
    GLCall.glGetProgramiv worldLinkFails.shaderProgram GLenum.GL_LINK_STATUS 0 ∈
      (main worldLinkFails).trace ∧
    GLCall.cout "ERROR::SHADER_PROGRAM::LINK::FAILED\n" ∈
      stdout (main worldLinkFails).trace := by
  decide

/-! ## The game loop and the exit status -/

theorem processInput_flag (flag : Bool) (key : Int) :
    (processInput flag key).2 = if key = GLFW_PRESS then true else flag := by
  by_cases hk : key = GLFW_PRESS <;> simp [processInput, hk]

theorem loopBody_flag (w : World) (flag : Bool) (f : Frame) :
    (loopBody w flag f).2 =
      match f.closeWrite with
      | some b => b
      | none => if f.key = GLFW_PRESS then true else flag := by
  rcases f with ⟨key, resize, closeWrite⟩
  cases closeWrite <;> simp [loopBody, pollEvents, processInput_flag]

theorem gameLoop_ends_indep (w₁ w₂ : World) (flag : Bool) (fs : List Frame) :
    (gameLoop w₁ flag fs).2 = (gameLoop w₂ flag fs).2 := by
  induction fs generalizing flag with
  | nil => cases flag <;> rfl
  | cons f fs ih =>
    cases flag
    · rw [gameLoop_false_cons, gameLoop_false_cons]
      exact ih _
    · rw [gameLoop_true, gameLoop_true]

theorem gameLoop_ends_of_close (w : World) (fs : List Frame)
    (hreset : ∀ f ∈ fs, f.closeWrite ≠ some false)
    (hclose : ∃ f ∈ fs, f.key = GLFW_PRESS ∨ f.closeWrite = some true) :
    (gameLoop w false fs).2 = true := by
  induction fs with
  | nil => simp at hclose
  | cons f fs ih =>
    rw [gameLoop_false_cons]
    show (gameLoop w (loopBody w false f).2 fs).2 = true
    cases hb : (loopBody w false f).2
    · apply ih (fun g hg => hreset g (List.mem_cons_of_mem _ hg))
      obtain ⟨g, hg, hgc⟩ := hclose
      rcases List.mem_cons.mp hg with rfl | hg
      · exfalso
        have hr := hreset g (List.mem_cons_self _ _)
        rw [loopBody_flag] at hb
        rcases hgc with hk | hc
        · rcases hcw : g.closeWrite with _ | b
          · simp [hcw, hk] at hb
          · simp [hcw] at hb
            subst hb
            exact hr hcw
        · simp [hc] at hb
      · exact ⟨g, hg, hgc⟩
    · rw [gameLoop_true]

theorem render_infix_loopBody (w : World) (flag : Bool) (f : Frame) :
    [ GLCall.glUseProgram w.shaderProgram, GLCall.glBindVertexArray w.VAO,
      GLCall.glDrawArrays GLenum.GL_TRIANGLES 0 3 ] <:+: (loopBody w flag f).1 := by
  refine ⟨(processInput flag f.key).1 ++
      [ GLCall.glClearColor 2 3 3 10, GLCall.glClear GLenum.GL_COLOR_BUFFER_BIT ],
    (pollEvents (processInput flag f.key).2 f).1 ++ [GLCall.glfwSwapBuffers], ?_⟩
  simp [loopBody_trace, renderCommands, List.append_assoc]

theorem main_exit_of_loaded (w : World) (hw : w.windowCreated = true)
    (hg : w.gladLoaded = true) :
    (main w).exit = if (gameLoop w w.shouldClose w.frames).2 then some 0 else none := by
  simp [main, hw, hg]

/-- C9: `main` returns -1 exactly when the window is not created or GLAD does
not load, and then issues no OpenGL call at all (so no shader, buffer or draw
call); `glfwTerminate` is the last call when the window is not created.
Otherwise, whatever the three shader statuses are, the run goes through the
shader and vertices set-up into the game loop, every pass of which binds the
program and the VAO and draws; it has no exit status while the loop runs and
returns 0 once the loop is left, with `glfwTerminate` as its last call.  The
exit status is the same for any two worlds that agree on window creation,
loader initialisation and the course of the loop, and it is 0 as soon as the
flag is set at the start or some pass sees escape or a close request and no
pass resets the flag. -/
theorem exit_status_ignores_shader_outcomes (w : World) :
    ((main w).exit = some (-1) ↔ (w.windowCreated = false ∨ w.gladLoaded = false)) ∧
    (w.windowCreated = false ∨ w.gladLoaded = false →
      ∀ c ∈ (main w).trace, c.isOpenGL = false) ∧
    (w.windowCreated = false → (main w).trace.getLast? = some GLCall.glfwTerminate) ∧
    (∀ w₂ : World, w₂.windowCreated = w.windowCreated → w₂.gladLoaded = w.gladLoaded →
      w₂.shouldClose = w.shouldClose → w₂.frames = w.frames →
      (main w₂).exit = (main w).exit) ∧
    (w.windowCreated = true → w.gladLoaded = true →
      (∃ pre,
        (main w).trace =
          pre ++ shaderSetup w ++ verticesSetup w ++
            (gameLoop w w.shouldClose w.frames).1 ++
            (if (gameLoop w w.shouldClose w.frames).2 then [GLCall.glfwTerminate]
             else [])) ∧
      (∀ flag f,
        [ GLCall.glUseProgram w.shaderProgram, GLCall.glBindVertexArray w.VAO,
          GLCall.glDrawArrays GLenum.GL_TRIANGLES 0 3 ] <:+: (loopBody w flag f).1) ∧
      (main w).exit =
        (if (gameLoop w w.shouldClose w.frames).2 then some 0 else none) ∧
      ((main w).exit = some 0 → (main w).trace.getLast? = some GLCall.glfwTerminate) ∧
      ((w.shouldClose = true ∨
          ((∃ f ∈ w.frames, f.key = GLFW_PRESS ∨ f.closeWrite = some true) ∧
            ∀ f ∈ w.frames, f.closeWrite ≠ some false)) →
        (main w).exit = some 0)) := by
  refine ⟨?_, ?_, ?_, ?_, ?_⟩
  · cases hw : w.windowCreated <;> cases hg : w.gladLoaded <;>
      simp [main, hw, hg]
  · intro h c hc
    cases hw : w.windowCreated
    · simp [main, hw, windowSetup] at hc
      casesm* _ ∨ _ <;> subst_vars <;> rfl
    · have hg : w.gladLoaded = false := by
        rcases h with h | h
        · rw [hw] at h
          cases h
        · exact h
      simp [main, hw, hg, windowSetup] at hc
      casesm* _ ∨ _ <;> subst_vars <;> rfl
  · intro hw
    simp [main, hw, windowSetup]
  · intro w₂ hw hg hc hf
    cases hw1 : w.windowCreated <;> cases hg1 : w.gladLoaded <;>
      simp [main, hw, hg, hw1, hg1, hc, hf, gameLoop_ends_indep w₂ w]
  · intro hw hg
    have hexit := main_exit_of_loaded w hw hg
    refine ⟨⟨windowSetup w ++
        [ GLCall.glfwMakeContextCurrent, GLCall.gladLoadGLLoader w.gladLoaded,
          GLCall.glViewport 0 0 800 600, GLCall.glfwSetFramebufferSizeCallback ],
        main_trace_of_loaded w hw hg⟩, render_infix_loopBody w, hexit, ?_, ?_⟩
    · intro h0
      have hend : (gameLoop w w.shouldClose w.frames).2 = true := by
        rw [hexit] at h0
        by_cases he : (gameLoop w w.shouldClose w.frames).2 = true
        · exact he
        · simp [he] at h0
      rw [main_trace_of_loaded w hw hg, hend]
      exact List.getLast?_concat _
    · intro h
      have hend : (gameLoop w w.shouldClose w.frames).2 = true := by
        rcases h with h | ⟨hclose, hreset⟩
        · rw [h, gameLoop_true]
        · cases hs : w.shouldClose
          · exact gameLoop_ends_of_close w w.frames hreset hclose
          · rw [gameLoop_true]
      rw [hexit, hend]
      rfl

/-- Witness for C9: with the vertex shader failing, the run still returns 0
after escape is pressed in the second pass; without a window it returns -1. -/
theorem exit_status_ignores_shader_outcomes_witness :
    worldVertexFails.windowCreated = true ∧ worldVertexFails.gladLoaded = true ∧
    worldVertexFails.vertexStatus = 0 ∧
    (main worldVertexFails).exit = some 0 ∧
    worldNoWindow.windowCreated = false ∧
    (main worldNoWindow).exit = some (-1) :=
  ⟨rfl, rfl, rfl,
    (exit_status_ignores_shader_outcomes worldVertexFails).2.2.2.2 rfl rfl
      |>.2.2.2.2 (Or.inr ⟨⟨⟨GLFW_PRESS, some (640, 480), none⟩, by decide, Or.inl rfl⟩,
        by decide⟩),
    rfl,
    (exit_status_ignores_shader_outcomes worldNoWindow).1.mpr (Or.inl rfl)⟩

/-- C10: the game loop as a step relation on the should-close flag.  With the
flag true no pass runs: the condition is tested once and the loop is left.
With the flag false one pass runs: the calls of `processInput` come first, the
rest of the pass holds exactly one draw call, `glDrawArrays(GL_TRIANGLES, 0, 3)`
issued right after `glUseProgram(shaderProgram)` and `glBindVertexArray(VAO)`,
and the loop goes on from the flag the pass leaves.  `processInput` calls
`glfwSetWindowShouldClose(window, true)` exactly when the key is reported
pressed, and leaves the flag as it was otherwise.  Hence a pass in which escape
is pressed and nothing resets the flag is the last one: the next test of the
condition leaves the loop, and that pass holds the only draw call. -/
theorem render_loop_step (w : World) (f : Frame) (fs : List Frame) :
    gameLoop w true fs = ([GLCall.glfwWindowShouldClose true], true) ∧
    gameLoop w false (f :: fs) =
      (GLCall.glfwWindowShouldClose false ::
        ((loopBody w false f).1 ++ (gameLoop w (loopBody w false f).2 fs).1),
       (gameLoop w (loopBody w false f).2 fs).2) ∧
    (∀ flag,
      ∃ rest,
        (loopBody w flag f).1 = (processInput flag f.key).1 ++ rest ∧
        (∀ c ∈ (processInput flag f.key).1, c.isDraw = false) ∧
        rest.filter GLCall.isDraw = [GLCall.glDrawArrays GLenum.GL_TRIANGLES 0 3] ∧
        [ GLCall.glUseProgram w.shaderProgram, GLCall.glBindVertexArray w.VAO,
          GLCall.glDrawArrays GLenum.GL_TRIANGLES 0 3 ] <:+: rest) ∧
    (∀ flag key,
      (GLCall.glfwSetWindowShouldClose true ∈ (processInput flag key).1 ↔
        key = GLFW_PRESS) ∧
      (key = GLFW_PRESS → (processInput flag key).2 = true) ∧
      (key ≠ GLFW_PRESS → (processInput flag key).2 = flag)) ∧
    (f.key = GLFW_PRESS → f.closeWrite ≠ some false →
      gameLoop w false (f :: fs) =
        (GLCall.glfwWindowShouldClose false ::
          ((loopBody w false f).1 ++ [GLCall.glfwWindowShouldClose true]), true) ∧
      (gameLoop w false (f :: fs)).1.filter GLCall.isDraw =
        [GLCall.glDrawArrays GLenum.GL_TRIANGLES 0 3]) := by
  have hdraw : ∀ flag, (loopBody w flag f).1.filter GLCall.isDraw =
      [GLCall.glDrawArrays GLenum.GL_TRIANGLES 0 3] := by
    intro flag
    rcases f with ⟨key, resize, closeWrite⟩
    rcases resize with _ | ⟨width, height⟩ <;>
      by_cases hk : key = GLFW_PRESS <;>
      simp [loopBody, processInput, pollEvents, renderCommands,
        framebuffer_size_callback, GLCall.isDraw, hk]
  refine ⟨gameLoop_true w fs, gameLoop_false_cons w f fs, ?_, ?_, ?_⟩
  · intro flag
    refine ⟨renderCommands w ++ (pollEvents (processInput flag f.key).2 f).1 ++
      [GLCall.glfwSwapBuffers], ?_, ?_, ?_, ?_⟩
    · simp [loopBody_trace, List.append_assoc]
    · intro c hc
      by_cases hk : f.key = GLFW_PRESS <;> simp [processInput, hk] at hc <;>
        (try casesm* _ ∨ _) <;> subst_vars <;> rfl
    · rcases f with ⟨key, resize, closeWrite⟩
      rcases resize with _ | ⟨width, height⟩ <;>
        simp [pollEvents, renderCommands, framebuffer_size_callback, GLCall.isDraw]
    · refine ⟨[ GLCall.glClearColor 2 3 3 10, GLCall.glClear GLenum.GL_COLOR_BUFFER_BIT ],
        (pollEvents (processInput flag f.key).2 f).1 ++ [GLCall.glfwSwapBuffers], ?_⟩
      simp [renderCommands, List.append_assoc]
  · intro flag key
    by_cases hk : key = GLFW_PRESS <;> simp [processInput, hk]
  · intro hk hr
    have hflag : (loopBody w false f).2 = true := by
      rw [loopBody_flag]
      rcases hcw : f.closeWrite with _ | b
      · simp [hk]
      · cases b
        · exact absurd hcw hr
        · rfl
    have hloop : gameLoop w false (f :: fs) =
        (GLCall.glfwWindowShouldClose false ::
          ((loopBody w false f).1 ++ [GLCall.glfwWindowShouldClose true]), true) := by
      rw [gameLoop_false_cons, hflag, gameLoop_true]
    refine ⟨hloop, ?_⟩
    rw [hloop]
    simp [List.filter_append, hdraw, GLCall.isDraw]

/-- Witness for C10: escape is pressed in the first pass and later frames are
never reached; the run draws once. -/
theorem render_loop_step_witness :
    (Frame.mk GLFW_PRESS none none).key = GLFW_PRESS ∧
    (Frame.mk GLFW_PRESS none none).closeWrite ≠ some false ∧
    (gameLoop worldAllOk false
        (Frame.mk GLFW_PRESS none none :: worldAllOk.frames)).1.filter GLCall.isDraw =
      [GLCall.glDrawArrays GLenum.GL_TRIANGLES 0 3] :=
  ⟨rfl, by decide,
    ((render_loop_step worldAllOk (Frame.mk GLFW_PRESS none none)
      worldAllOk.frames).2.2.2.2 rfl (by decide)).2⟩

end LearnOpenGL
